import Mathlib

/-!
# Verification of the jpeg-bot pipeline (src/main.go)

A shallow embedding of the jpeg-bot Mastodon bot. The program listens for
mention notifications, collects image attachment URLs from the mentioning
status (or its parent), downloads each image, decodes it, re-encodes it as a
quality-5 JPEG, uploads the result and posts a reply.

External collaborators (the Mastodon client, HTTP, and the image codec
libraries) are modelled as oracle functions collected in an `Env` record;
the bot's own logic (`collectImages`, `decodeImage`,
`downloadAndCompressImage`, `uploadMediaAndReply`, `replyWithError`,
`handleMention`) is translated function-by-function from `src/main.go`.

Go-specific details that matter to the claims are modelled explicitly:

* Go's `status.InReplyToID` is an `interface\x7b\x7d`; its possible dynamic
  contents (nil, `string`, `mastodon.ID`, or anything else) are the four
  constructors of `InReplyTo`.
* a Go byte slice has both a length and a capacity; the slice expression
  `imgData[:8]` in `decodeImage` panics exactly when the capacity is below 8,
  and otherwise yields the first 8 bytes of the backing array (the read
  data padded with the zero bytes of the freshly allocated buffer when fewer
  than 8 bytes were read). `decodeImage` therefore takes the logical byte
  contents together with the slice capacity, and its result type `POutcome`
  has a `panicked` constructor. `io.ReadAll` always returns a slice with
  capacity at least 512 (its initial allocation), modelled by `readAllCap`.
* effects are traces: each workflow function returns a `Posted` record
  listing the status posts it attempted, the log lines it emitted, and
  whether a panic aborted it.
-/

set_option autoImplicit false

namespace JpegBot

/-- The dynamic content of the Go `interface\x7b\x7d` field `Status.InReplyToID`:
absent (`goNil`), a raw `string`, a typed `mastodon.ID`, or an unrecognized
dynamic type (`other` carries the type name printed by the `%T` verb). -/
inductive InReplyTo where
  | goNil
  | rawString (s : String)
  | typedID (i : String)
  | other (tyName : String)
deriving DecidableEq, Repr

/-- A media attachment of a status: its type tag and source URL
(`mastodon.Attachment`, the fields read by `collectImages`). -/
structure Attachment where
  type : String
  url : String
deriving DecidableEq, Repr

/-- The fields of `mastodon.Status` read by the bot. -/
structure Status where
  id : String
  visibility : String
  mediaAttachments : List Attachment
  inReplyToID : InReplyTo
deriving DecidableEq, Repr

/-- The mentioning account (`mastodon.Account`); only `Acct` is read. -/
structure Account where
  acct : String
deriving DecidableEq, Repr

/-- A mention notification (`mastodon.Notification`): the source account and
the mentioning status. -/
structure Notification where
  account : Account
  status : Status
deriving DecidableEq, Repr

/-- A status post (`mastodon.Toot`): the fields the bot fills in. -/
structure Toot where
  status : String
  inReplyToID : String
  mediaIDs : List String
  visibility : String
deriving DecidableEq, Repr

/-- A decoded bitmap (`image.Image`). Its contents are irrelevant to every
claim, so it is an abstract token. -/
structure Image where
  raw : Nat
deriving DecidableEq, Repr

/-- Result of running a piece of Go code that can return a value, return an
error, or panic. -/
inductive POutcome (α : Type) where
  | ok (a : α)
  | err (msg : String)
  | panicked (msg : String)
deriving DecidableEq, Repr

/-- Returns `true` exactly on the `panicked` constructor. -/
def POutcome.isPanicked {α : Type} : POutcome α → Bool
  | .panicked _ => true
  | _ => false

/-! ## Attachment collection (`collectImages`, main.go 77-116) -/

/-- The loop `for _, attachment := range attachments` appending
`attachment.URL` whenever `attachment.Type == "image"`. -/
def collectImageURLs : List Attachment → List String
  | [] => []
  | attachment :: rest =>
    if attachment.type = "image" then
      attachment.url :: collectImageURLs rest
    else
      collectImageURLs rest

/-- Result of `collectImages`: the returned URL list, the identifier passed
to `client.GetStatus` when that call was made (`none` when it was not), and
the log lines emitted. -/
structure CollectResult where
  images : List String
  parentFetch : Option String
  logs : List String
deriving DecidableEq, Repr

/-- The function `collectImages` (main.go 77-116). `getStatus` is the oracle for
`client.GetStatus` (`Except.error` = the fetch failed). The Go guard
`status.InReplyToID != ""` compares the interface value with the string
`""`: it is false only when the dynamic content is exactly the raw string
`""`. Inside the branch, a nil interface returns early; otherwise the type
switch extracts the identifier, and in the `default` case it logs the
unexpected type and falls through, so `client.GetStatus` is still called
with the zero-value identifier `""`. -/
def collectImages (getStatus : String → Except String Status)
    (status : Status) : CollectResult :=
  let images := collectImageURLs status.mediaAttachments
  if images = [] ∧ status.inReplyToID ≠ InReplyTo.rawString "" then
    match status.inReplyToID with
    | InReplyTo.goNil => ⟨images, none, []⟩
    | InReplyTo.rawString s =>
      match getStatus s with
      | Except.ok originalStatus =>
        ⟨images ++ collectImageURLs originalStatus.mediaAttachments, some s, []⟩
      | Except.error _ => ⟨images, some s, []⟩
    | InReplyTo.typedID i =>
      match getStatus i with
      | Except.ok originalStatus =>
        ⟨images ++ collectImageURLs originalStatus.mediaAttachments, some i, []⟩
      | Except.error _ => ⟨images, some i, []⟩
    | InReplyTo.other tyName =>
      match getStatus "" with
      | Except.ok originalStatus =>
        ⟨images ++ collectImageURLs originalStatus.mediaAttachments, some "",
          ["Unexpected type for InReplyToID: " ++ tyName]⟩
      | Except.error _ =>
        ⟨images, some "", ["Unexpected type for InReplyToID: " ++ tyName]⟩
  else
    ⟨images, none, []⟩

/-! ## Image decoding (`decodeImage`, main.go 146-169) -/

/-- One lowercase hex digit, as printed by Go's `%x` verb. -/
def hexDigit (n : Nat) : Char :=
  if n < 10 then Char.ofNat (48 + n) else Char.ofNat (87 + n)

/-- A byte as two lowercase hex digits (`%x` on a byte). -/
def hexByte (b : Nat) : String :=
  String.mk [hexDigit (b / 16 % 16), hexDigit (b % 16)]

/-- Go's `fmt.Sprintf "%x"` on a byte slice: two lowercase hex digits per byte,
no separators. -/
def hexString (bs : List Nat) : String :=
  String.join (bs.map hexByte)

/-- Go's `strings.HasPrefix s pre`: `pre` is a prefix of `s`, decided over
the character lists. -/
def hasPrefixGo (s pre : String) : Bool :=
  pre.data.isPrefixOf s.data

/-- The contents of the Go slice expression `imgData[:8]` when the capacity
is at least 8: the first 8 bytes of the backing array, i.e. the logical
contents padded with the zero bytes of the freshly allocated buffer when
fewer than 8 bytes are present. -/
def goSlice8 (imgData : List Nat) : List Nat :=
  (imgData ++ List.replicate 8 0).take 8

/-- The three image decoding libraries used by `decodeImage`, as oracles:
`png.Decode`, the generic `image.Decode` (which also returns the detected
format name), and `webp.Decode`. -/
structure Decoders where
  pngDecode : List Nat → Except String Image
  imageDecode : List Nat → Except String (Image × String)
  webpDecode : List Nat → Except String Image

/-- The function `decodeImage` (main.go 146-169). `imgData` is the logical byte contents
and `cap` the capacity of the Go slice; `imgData[:8]` panics when `cap < 8`.
The PNG signature test is Go's
`strings.HasPrefix(fmt.Sprintf("%x", imgData[:8]), "89504e470d0a1a0a")`.
On a signature match a PNG decode failure is returned as an error with no
fallback; otherwise generic detection is tried, then (after rewinding the
reader) WEBP, and if all fail the error is `unsupported image format`. -/
def decodeImage (d : Decoders) (imgData : List Nat) (cap : Nat) :
    POutcome (Image × String) :=
  if cap < 8 then
    POutcome.panicked "runtime error: slice bounds out of range"
  else if hasPrefixGo (hexString (goSlice8 imgData)) "89504e470d0a1a0a" then
    match d.pngDecode imgData with
    | Except.ok img => POutcome.ok (img, "png")
    | Except.error e => POutcome.err ("PNG decoding failed: " ++ e)
  else
    match d.imageDecode imgData with
    | Except.ok (img, format) => POutcome.ok (img, format)
    | Except.error _ =>
      match d.webpDecode imgData with
      | Except.ok img => POutcome.ok (img, "webp")
      | Except.error _ => POutcome.err "unsupported image format"

/-- The first 8 bytes of every PNG file. -/
def pngMagicBytes : List Nat := [137, 80, 78, 71, 13, 10, 26, 10]

/-! ## The service and network oracles -/

/-- The external collaborators of the bot, as oracle functions:
the Mastodon client (`GetStatus`, `UploadMediaFromReader`, `PostStatus`),
plain HTTP (`http.Get` plus `io.ReadAll` of the response body), the image
decoders, and `jpeg.Encode` (taking the bitmap and the quality option).
`Except.error` carries the Go error message. -/
structure Env where
  getStatus : String → Except String Status
  httpGet : String → Except String (List Nat)
  readAll : List Nat → Except String (List Nat)
  decoders : Decoders
  jpegEncode : Image → Nat → Except String (List Nat)
  uploadMedia : List Nat → Except String String
  postStatus : Toot → Except String Unit

/-- Capacity of the slice returned by `io.ReadAll` for `n` bytes of data:
`io.ReadAll` starts from a buffer of capacity 512 and only ever grows it,
so the capacity is at least `max 512 n`. Only `8 ≤ readAllCap n` matters
below. -/
def readAllCap (n : Nat) : Nat := max 512 n

/-! ## The reply workflow (main.go 58-75, 118-144, 171-205) -/

/-- The observable effects of one workflow function: the status posts it
attempted (in order), the log lines it emitted, and the message of the Go
panic that aborted it, if one did. -/
structure Posted where
  posts : List Toot
  logs : List String
  crash : Option String
deriving DecidableEq, Repr

/-- Sequencing of effects: a panic in the first part aborts everything
after it. -/
def Posted.seq (a b : Posted) : Posted :=
  match a.crash with
  | some _ => a
  | none => ⟨a.posts ++ b.posts, a.logs ++ b.logs, b.crash⟩

/-- The `reply` toot literal of `replyWithError` (main.go 196-200): text
`"@<acct> Oops! <errorMsg>"`, replying to the mentioning status, no media,
visibility taken verbatim from the mentioning status. -/
def errorToot (notification : Notification) (errorMsg : String) : Toot :=
  { status := "@" ++ notification.account.acct ++ " Oops! " ++ errorMsg
    inReplyToID := notification.status.id
    mediaIDs := []
    visibility := notification.status.visibility }

/-- The function `replyWithError` (main.go 195-205): post the error toot and log
`Error posting error reply` if the post fails. -/
def replyWithError (env : Env) (notification : Notification)
    (errorMsg : String) : Posted :=
  match env.postStatus (errorToot notification errorMsg) with
  | Except.ok _ => ⟨[errorToot notification errorMsg], [], none⟩
  | Except.error e =>
    ⟨[errorToot notification errorMsg],
      ["Error posting error reply: " ++ e], none⟩

/-- The `reply` toot literal of `uploadMediaAndReply` (main.go 182-187):
`visibility` is the value after the `public` to `unlisted` downgrade. -/
def successToot (notification : Notification) (mediaID : String)
    (visibility : String) : Toot :=
  { status := "@" ++ notification.account.acct ++
      " Here's your compressed JPEG!"
    inReplyToID := notification.status.id
    mediaIDs := [mediaID]
    visibility := visibility }

/-- The function `uploadMediaAndReply` (main.go 171-193): upload the compressed JPEG
(failure turns into an error reply), downgrade `public` visibility to
`unlisted`, post the success reply, and on a posting failure call
`replyWithError` with `Error posting reply`. -/
def uploadMediaAndReply (env : Env) (compressedJPEG : List Nat)
    (notification : Notification) (visibility : String) : Posted :=
  match env.uploadMedia compressedJPEG with
  | Except.error e =>
    replyWithError env notification ("Error uploading media: " ++ e)
  | Except.ok mediaID =>
    let visibility := if visibility = "public" then "unlisted" else visibility
    match env.postStatus (successToot notification mediaID visibility) with
    | Except.ok _ => ⟨[successToot notification mediaID visibility], [], none⟩
    | Except.error e =>
      Posted.seq ⟨[successToot notification mediaID visibility], [], none⟩
        (replyWithError env notification ("Error posting reply: " ++ e))

/-- The function `downloadAndCompressImage` (main.go 118-144): HTTP GET the URL, read the
response body, decode the bytes (`decodeImage` applied to the `io.ReadAll`
slice, whose capacity is `readAllCap`), and JPEG-encode the bitmap with
`jpeg.Options\x7bQuality: 5\x7d`. Each stage wraps its failure in the
corresponding error message. -/
def downloadAndCompressImage (env : Env) (imageURL : String) :
    POutcome (List Nat) :=
  match env.httpGet imageURL with
  | Except.error e => POutcome.err ("failed to download image: " ++ e)
  | Except.ok body =>
    match env.readAll body with
    | Except.error e => POutcome.err ("failed to read image data: " ++ e)
    | Except.ok imgData =>
      match decodeImage env.decoders imgData (readAllCap imgData.length) with
      | POutcome.panicked m => POutcome.panicked m
      | POutcome.err e => POutcome.err ("error decoding image: " ++ e)
      | POutcome.ok (img, _format) =>
        match env.jpegEncode img 5 with
        | Except.error e => POutcome.err ("error encoding to jpeg: " ++ e)
        | Except.ok buf => POutcome.ok buf

/-- The body of the `for _, imageURL := range images` loop in
`handleMention` (main.go 67-74), for one URL: a pipeline failure produces
an error reply prefixed `Error compressing image:`, a pipeline success runs
`uploadMediaAndReply`, and a pipeline panic aborts the program. -/
def perImage (env : Env) (notification : Notification) (visibility : String)
    (imageURL : String) : Posted :=
  match downloadAndCompressImage env imageURL with
  | POutcome.err e =>
    replyWithError env notification ("Error compressing image: " ++ e)
  | POutcome.ok compressedJPEG =>
    uploadMediaAndReply env compressedJPEG notification visibility
  | POutcome.panicked m => ⟨[], [], some m⟩

/-- The `for _, imageURL := range images` loop of `handleMention`:
process the URLs left to right, a panic aborting the rest. -/
def processImages (env : Env) (notification : Notification)
    (visibility : String) : List String → Posted
  | [] => ⟨[], [], none⟩
  | imageURL :: rest =>
    Posted.seq (perImage env notification visibility imageURL)
      (processImages env notification visibility rest)

/-- The function `handleMention` (main.go 58-75): collect the image URLs of the
mentioning status; when there are none, post the single error reply
`No images found to process.`; otherwise run the per-image pipeline for
each URL. -/
def handleMention (env : Env) (notification : Notification) : Posted :=
  let status := notification.status
  let images := (collectImages env.getStatus status).images
  if images.length = 0 then
    replyWithError env notification "No images found to process."
  else
    processImages env notification status.visibility images

/-! ## Shared lemmas -/

/-- The loop translation `collectImageURLs` is the filter-and-project of the attachment list:
the URLs of the attachments whose type is `"image"`, in attachment order. -/
theorem collectImageURLs_eq (atts : List Attachment) :
    collectImageURLs atts =
      (atts.filter fun a => a.type == "image").map Attachment.url := by
  induction atts with
  | nil => rfl
  | cons a rest ih =>
    by_cases h : a.type = "image" <;>
      simp [collectImageURLs, List.filter_cons, h, ih]

/-- The function `replyWithError` attempts exactly one status post: the error toot. -/
theorem replyWithError_posts (env : Env) (notification : Notification)
    (errorMsg : String) :
    (replyWithError env notification errorMsg).posts =
      [errorToot notification errorMsg] := by
  unfold replyWithError
  cases env.postStatus (errorToot notification errorMsg) <;> rfl

/-- The function `replyWithError` never panics. -/
theorem replyWithError_crash (env : Env) (notification : Notification)
    (errorMsg : String) :
    (replyWithError env notification errorMsg).crash = none := by
  unfold replyWithError
  cases env.postStatus (errorToot notification errorMsg) <;> rfl

/-! ## C1: attachment collection -/

/-- C1: for a status with at least one image attachment, `collectImages`
returns exactly the URLs of the image attachments in attachment order
(first conjunct characterises `collectImageURLs` as the ordered
filter-and-project) and never calls `GetStatus`; for a status with no image
attachments and a present, recognized reply target, it returns the parent
status's image URLs when the fetch succeeds and the empty list when the
fetch fails. -/
theorem collectImages_spec (getStatus : String → Except String Status)
    (status : Status) :
    (collectImageURLs status.mediaAttachments =
      (status.mediaAttachments.filter fun a => a.type == "image").map
        Attachment.url)
    ∧ (collectImageURLs status.mediaAttachments ≠ [] →
        collectImages getStatus status =
          ⟨collectImageURLs status.mediaAttachments, none, []⟩)
    ∧ (∀ s : String,
        collectImageURLs status.mediaAttachments = [] →
        ((status.inReplyToID = InReplyTo.rawString s ∧ s ≠ "") ∨
          status.inReplyToID = InReplyTo.typedID s) →
        (∀ parent, getStatus s = Except.ok parent →
          (collectImages getStatus status).images =
            collectImageURLs parent.mediaAttachments)
        ∧ (∀ e, getStatus s = Except.error e →
            (collectImages getStatus status).images = [])) := by
  refine ⟨collectImageURLs_eq status.mediaAttachments, ?_, ?_⟩
  · intro hne
    simp [collectImages, hne]
  · intro s hempty htarget
    constructor
    · intro parent hok
      rcases htarget with ⟨hr, hs⟩ | ht
      · simp [collectImages, hempty, hr, hs, hok]
      · simp [collectImages, hempty, ht, hok]
    · intro e herr
      rcases htarget with ⟨hr, hs⟩ | ht
      · simp [collectImages, hempty, hr, hs, herr]
      · simp [collectImages, hempty, ht, herr]

/-- A parent status holding one image attachment, for the C1 witness. -/
def sampleParent : Status :=
  ⟨"7", "public", [⟨"image", "https://files.example/parent.png"⟩],
    InReplyTo.goNil⟩

/-- A `GetStatus` oracle resolving only the identifier `"42"`. -/
def sampleGetStatus : String → Except String Status := fun i =>
  if i = "42" then Except.ok sampleParent else Except.error "record not found"

/-- A mentioning status with no attachments replying to status `"42"`. -/
def sampleReplyStatus : Status := ⟨"100", "public", [], InReplyTo.typedID "42"⟩

/-- Witness for C1 at concrete inputs: the mentioning status has no image
attachments and a typed reply target that resolves, so the collector
returns the parent's single image URL. -/
theorem collectImages_spec_witness :
    (collectImages sampleGetStatus sampleReplyStatus).images =
      ["https://files.example/parent.png"] :=
  ((collectImages_spec sampleGetStatus sampleReplyStatus).2.2 "42" rfl
    (Or.inr rfl)).1 sampleParent rfl

/-! ## C2: reply visibility -/

/-- C2: when the media upload succeeds, the success reply posted by
`uploadMediaAndReply` (invoked by `handleMention` with the mentioning
status's visibility) has visibility `"unlisted"` when the original
visibility is `"public"` and the original visibility otherwise; every
error reply keeps the mentioning status's visibility verbatim. -/
theorem reply_visibility_spec (env : Env) (jpeg : List Nat)
    (notification : Notification) (mediaID : String) :
    (env.uploadMedia jpeg = Except.ok mediaID →
      (uploadMediaAndReply env jpeg notification
          notification.status.visibility).posts.head?.map Toot.visibility =
        some (if notification.status.visibility = "public" then "unlisted"
          else notification.status.visibility))
    ∧ ∀ errorMsg : String,
        ∀ t ∈ (replyWithError env notification errorMsg).posts,
          t.visibility = notification.status.visibility := by
  constructor
  · intro hup
    simp only [uploadMediaAndReply, hup]
    cases env.postStatus (successToot notification mediaID
        (if notification.status.visibility = "public" then "unlisted"
          else notification.status.visibility)) with
    | ok u => rfl
    | error e => rfl
  · intro errorMsg t ht
    rw [replyWithError_posts] at ht
    simp only [List.mem_singleton] at ht
    rw [ht]
    rfl

/-- Oracles for the C2 witness: upload succeeds with media id `"m1"`,
posting succeeds. -/
def c2Env : Env where
  getStatus := fun _ => Except.error "record not found"
  httpGet := fun _ => Except.ok []
  readAll := fun b => Except.ok b
  decoders :=
    ⟨fun _ => Except.error "png", fun _ => Except.error "gen",
      fun _ => Except.error "webp"⟩
  jpegEncode := fun _ _ => Except.ok [1]
  uploadMedia := fun _ => Except.ok "m1"
  postStatus := fun _ => Except.ok ()

/-- A mention of a public status, for the C2 witness. -/
def c2Notif : Notification :=
  ⟨⟨"alice"⟩, ⟨"100", "public", [], InReplyTo.goNil⟩⟩

/-- Witness for C2 at concrete inputs: a public mention leads to an
unlisted success reply, and the error reply keeps visibility public. -/
theorem reply_visibility_spec_witness :
    (uploadMediaAndReply c2Env [9] c2Notif
        c2Notif.status.visibility).posts.head?.map Toot.visibility =
      some "unlisted"
    ∧ ∀ t ∈ (replyWithError c2Env c2Notif "boom").posts,
        t.visibility = "public" := by
  constructor
  · have h := (reply_visibility_spec c2Env [9] c2Notif "m1").1 rfl
    rw [h]
    rfl
  · intro t ht
    exact (reply_visibility_spec c2Env [9] c2Notif "m1").2 "boom" t ht

/-! ## C3: unrecognized reply-target representation (corrected) -/

/-- Parent status used by the C3 counterexample. -/
def c3Parent : Status :=
  ⟨"2", "public", [⟨"image", "https://files.example/c3.png"⟩],
    InReplyTo.goNil⟩

/-- A `GetStatus` oracle that resolves the empty identifier, for the C3
counterexample. -/
def c3GetStatus : String → Except String Status := fun i =>
  if i = "" then Except.ok c3Parent else Except.error "record not found"

/-- A mentioning status with no attachments whose reply target has an
unrecognized dynamic type (dynamic type name `float64`). -/
def c3Status : Status := ⟨"1", "public", [], InReplyTo.other "float64"⟩

/-- Counterexample to C3: on an unrecognized reply-target representation
the collector does NOT treat the identifier as absent: it calls
`GetStatus` with the zero-value identifier `""` (`parentFetch = some ""`),
and when that call resolves it returns the parent's image URLs rather than
the empty list. -/
theorem collectImages_other_counterexample :
    (collectImages c3GetStatus c3Status).parentFetch = some ""
    ∧ (collectImages c3GetStatus c3Status).images =
        ["https://files.example/c3.png"] := by
  constructor <;> rfl

/-- C3 (amended): for a status with no image attachments whose reply target
has an unrecognized dynamic type, `collectImages` logs the unexpected type
but still attempts the parent lookup, passing the zero-value identifier
`""` to `GetStatus`; when the fetch fails the empty list is returned, and
when it succeeds the parent's image URLs are returned. -/
theorem collectImages_other_spec (getStatus : String → Except String Status)
    (status : Status) (tyName : String)
    (hempty : collectImageURLs status.mediaAttachments = [])
    (hother : status.inReplyToID = InReplyTo.other tyName) :
    (collectImages getStatus status).logs =
      ["Unexpected type for InReplyToID: " ++ tyName]
    ∧ (collectImages getStatus status).parentFetch = some ""
    ∧ (∀ parent, getStatus "" = Except.ok parent →
        (collectImages getStatus status).images =
          collectImageURLs parent.mediaAttachments)
    ∧ (∀ e, getStatus "" = Except.error e →
        (collectImages getStatus status).images = []) := by
  refine ⟨?_, ?_, ?_, ?_⟩
  · cases h : getStatus "" with
    | ok parent => simp [collectImages, hempty, hother, h]
    | error e => simp [collectImages, hempty, hother, h]
  · cases h : getStatus "" with
    | ok parent => simp [collectImages, hempty, hother, h]
    | error e => simp [collectImages, hempty, hother, h]
  · intro parent hok
    simp [collectImages, hempty, hother, hok]
  · intro e herr
    simp [collectImages, hempty, hother, herr]

/-- A `GetStatus` oracle that always fails, for the C3 witness. -/
def c3FailGetStatus : String → Except String Status := fun _ =>
  Except.error "record not found"

/-- Witness for the amended C3 at concrete inputs: the unexpected dynamic
type is logged, the lookup is attempted with `""`, and since the fetch
fails the empty list is returned. -/
theorem collectImages_other_spec_witness :
    (collectImages c3FailGetStatus c3Status).logs =
      ["Unexpected type for InReplyToID: float64"]
    ∧ (collectImages c3FailGetStatus c3Status).parentFetch = some ""
    ∧ (collectImages c3FailGetStatus c3Status).images = [] := by
  have h := collectImages_other_spec c3FailGetStatus c3Status "float64" rfl rfl
  exact ⟨h.1, h.2.1, h.2.2.2 "record not found" rfl⟩

/-! ## C4: decoder totality (corrected) -/

/-- With slice capacity at least 8 the decoder cannot panic: every branch
after the signature test returns a value or an error. -/
theorem decodeImage_isPanicked_eq_false (d : Decoders) (imgData : List Nat)
    (cap : Nat) (hcap : 8 ≤ cap) :
    (decodeImage d imgData cap).isPanicked = false := by
  unfold decodeImage
  rw [if_neg (by omega)]
  split
  · cases d.pngDecode imgData <;> rfl
  · cases d.imageDecode imgData with
    | ok p => cases p; rfl
    | error e1 => cases d.webpDecode imgData <;> rfl

/-- Decoding oracles on which every decode attempt fails. -/
def c4Decoders : Decoders :=
  ⟨fun _ => Except.error "png", fun _ => Except.error "generic",
    fun _ => Except.error "webp"⟩

/-- Counterexample to C4: on the empty byte sequence (a slice of length and
capacity 0), the slice expression `imgData[:8]` is out of range, so
`decodeImage` panics instead of returning a bitmap or failing with an
error. -/
theorem decodeImage_short_input_counterexample :
    decodeImage c4Decoders [] 0 =
      POutcome.panicked "runtime error: slice bounds out of range" := rfl

/-- C4 (amended): for every input whose slice capacity is at least 8 (in
particular every byte sequence of length at least 8), `decodeImage`
returns a decoded bitmap with a format label or fails with an error —
`unsupported image format` when the signature does not match and both
remaining detection attempts fail; inputs shorter than 8 bytes with
matching capacity make the slice expression `imgData[:8]` panic. -/
theorem decodeImage_total (d : Decoders) (imgData : List Nat) (cap : Nat)
    (hcap : 8 ≤ cap) :
    (decodeImage d imgData cap).isPanicked = false
    ∧ (hasPrefixGo (hexString (goSlice8 imgData))
          "89504e470d0a1a0a" = false →
        ∀ e1 e2, d.imageDecode imgData = Except.error e1 →
          d.webpDecode imgData = Except.error e2 →
          decodeImage d imgData cap =
            POutcome.err "unsupported image format") := by
  refine ⟨decodeImage_isPanicked_eq_false d imgData cap hcap, ?_⟩
  intro hpre e1 e2 h1 h2
  have hnot8 : ¬ cap < 8 := by omega
  have hnpre : ¬ (hasPrefixGo (hexString (goSlice8 imgData))
      "89504e470d0a1a0a" = true) := by
    simp [hpre]
  unfold decodeImage
  rw [if_neg hnot8, if_neg hnpre, h1, h2]

/-- Witness for the amended C4 at a concrete input: eight zero bytes match
no signature and every decoder fails, so the result is the
`unsupported image format` error and no panic. -/
theorem decodeImage_total_witness :
    (decodeImage c4Decoders [0, 0, 0, 0, 0, 0, 0, 0] 8).isPanicked = false
    ∧ decodeImage c4Decoders [0, 0, 0, 0, 0, 0, 0, 0] 8 =
        POutcome.err "unsupported image format" := by
  have h := decodeImage_total c4Decoders [0, 0, 0, 0, 0, 0, 0, 0] 8
    (by decide)
  exact ⟨h.1, h.2 (by decide) "generic" "webp" rfl rfl⟩

/-! ## C5: PNG signature routing -/

/-- C5: a byte sequence beginning with the 8-byte PNG signature is routed
to the PNG decoder: the result is determined by `png.Decode` alone — the
label is `"png"` on success, a decode failure is the fatal
`PNG decoding failed` error, and (second conjunct) the result does not
depend on the generic or WEBP decoders at all, so no fallback happens. -/
theorem decodeImage_png_magic (d : Decoders) (imgData : List Nat)
    (cap : Nat) (hmagic : imgData.take 8 = pngMagicBytes) (hcap : 8 ≤ cap) :
    (decodeImage d imgData cap =
      match d.pngDecode imgData with
      | Except.ok img => POutcome.ok (img, "png")
      | Except.error e => POutcome.err ("PNG decoding failed: " ++ e))
    ∧ ∀ d2 : Decoders, d2.pngDecode = d.pngDecode →
        decodeImage d2 imgData cap = decodeImage d imgData cap := by
  have hlen : 8 ≤ imgData.length := by
    have h := congrArg List.length hmagic
    simp [List.length_take, pngMagicBytes] at h
    omega
  have hslice : goSlice8 imgData = pngMagicBytes := by
    unfold goSlice8
    rw [List.take_append_eq_append_take, hmagic, Nat.sub_eq_zero_of_le hlen]
    simp
  have hpre : hasPrefixGo (hexString (goSlice8 imgData))
      "89504e470d0a1a0a" = true := by
    rw [hslice]
    decide
  have hnot8 : ¬ cap < 8 := by omega
  constructor
  · unfold decodeImage
    rw [if_neg hnot8, if_pos hpre]
  · intro d2 hpd
    unfold decodeImage
    rw [if_neg hnot8, if_neg hnot8, if_pos hpre, if_pos hpre, hpd]

/-- PNG decoding succeeds with an abstract bitmap; the other decoders
fail. -/
def c5Decoders : Decoders :=
  ⟨fun _ => Except.ok ⟨7⟩, fun _ => Except.error "generic",
    fun _ => Except.error "webp"⟩

/-- Same PNG decoder as `c5Decoders`, but generic detection and WEBP would
both succeed with a different bitmap. -/
def c5DecodersB : Decoders :=
  ⟨fun _ => Except.ok ⟨7⟩, fun _ => Except.ok (⟨9⟩, "jpeg"),
    fun _ => Except.ok ⟨9⟩⟩

/-- Witness for C5 at a concrete input starting with the PNG signature:
the PNG decoder's bitmap is returned with label `"png"`, and swapping in
decoders whose generic and WEBP stages would succeed differently changes
nothing. -/
theorem decodeImage_png_magic_witness :
    decodeImage c5Decoders (pngMagicBytes ++ [0, 1, 2]) 11 =
      POutcome.ok (⟨7⟩, "png")
    ∧ decodeImage c5DecodersB (pngMagicBytes ++ [0, 1, 2]) 11 =
        decodeImage c5Decoders (pngMagicBytes ++ [0, 1, 2]) 11 := by
  have h := decodeImage_png_magic c5Decoders (pngMagicBytes ++ [0, 1, 2]) 11
    (by decide) (by decide)
  exact ⟨h.1, h.2 c5DecodersB rfl⟩

/-! ## C6: per-image independence -/

/-- The download/decode/compress pipeline cannot return the panic outcome:
by the time `decodeImage` runs, the data sits in the `io.ReadAll` buffer,
whose capacity is at least 512, so the `imgData[:8]` slice is in range. -/
theorem downloadAndCompressImage_isPanicked (env : Env) (imageURL : String) :
    (downloadAndCompressImage env imageURL).isPanicked = false := by
  unfold downloadAndCompressImage
  split
  · rfl
  · split
    · rfl
    next body imgData hdata =>
      split
      next m2 hdec =>
        have h := decodeImage_isPanicked_eq_false env.decoders imgData
          (readAllCap imgData.length)
          (by have := Nat.le_max_left 512 imgData.length
              simp only [readAllCap]
              omega)
        rw [hdec] at h
        exact h
      next e hdec => rfl
      next img fmt hdec => split <;> rfl

/-- The download/decode/compress pipeline never panics. -/
theorem downloadAndCompressImage_no_panic (env : Env) (imageURL : String) :
    ∀ m, downloadAndCompressImage env imageURL ≠ POutcome.panicked m := by
  intro m h
  have hp := downloadAndCompressImage_isPanicked env imageURL
  rw [h] at hp
  simp [POutcome.isPanicked] at hp

/-- The function `uploadMediaAndReply` never panics. -/
theorem uploadMediaAndReply_crash (env : Env) (jpeg : List Nat)
    (notification : Notification) (vis : String) :
    (uploadMediaAndReply env jpeg notification vis).crash = none := by
  simp only [uploadMediaAndReply]
  split
  · exact replyWithError_crash env notification _
  · split
    · rfl
    · simp [Posted.seq, replyWithError_crash]

/-- The function `uploadMediaAndReply` always attempts at least one status post. -/
theorem uploadMediaAndReply_posts_ne_nil (env : Env) (jpeg : List Nat)
    (notification : Notification) (vis : String) :
    (uploadMediaAndReply env jpeg notification vis).posts ≠ [] := by
  simp only [uploadMediaAndReply]
  split
  · rw [replyWithError_posts]; simp
  · split
    · simp
    · simp [Posted.seq]

/-- One iteration of the image loop never panics. -/
theorem perImage_crash (env : Env) (notification : Notification)
    (vis url : String) : (perImage env notification vis url).crash = none := by
  unfold perImage
  cases hd : downloadAndCompressImage env url with
  | ok jpeg => exact uploadMediaAndReply_crash env jpeg notification vis
  | err e => exact replyWithError_crash env notification _
  | panicked m => exact absurd hd (downloadAndCompressImage_no_panic env url m)

/-- The image loop is the independent concatenation of its iterations:
posts and logs are the per-URL posts and logs in URL order, and no panic
occurs. -/
theorem processImages_eq (env : Env) (notification : Notification)
    (vis : String) (urls : List String) :
    processImages env notification vis urls =
      ⟨urls.flatMap fun u => (perImage env notification vis u).posts,
       urls.flatMap fun u => (perImage env notification vis u).logs,
       none⟩ := by
  induction urls with
  | nil => rfl
  | cons u rest ih =>
    have hc := perImage_crash env notification vis u
    simp only [processImages, ih, Posted.seq, hc, List.flatMap_cons]

/-- C6: when the collector finds at least one image URL, `handleMention`
runs the per-image pipeline for every URL: the posted replies are the
concatenation, in URL order, of each URL's own pipeline replies, each
computed independently of the other URLs' outcomes (first conjunct); a
pipeline failure for one URL produces the `Error compressing image:` error
reply for that URL (second conjunct); and every URL contributes at least
one reply attempt (third conjunct), so one image's failure never prevents
the other images from being attempted. -/
theorem handleMention_independent (env : Env)
    (notification : Notification) :
    ((collectImages env.getStatus notification.status).images ≠ [] →
      handleMention env notification =
        ⟨((collectImages env.getStatus notification.status).images).flatMap
            fun u => (perImage env notification
              notification.status.visibility u).posts,
         ((collectImages env.getStatus notification.status).images).flatMap
            fun u => (perImage env notification
              notification.status.visibility u).logs,
         none⟩)
    ∧ (∀ url e, downloadAndCompressImage env url = POutcome.err e →
        ∀ vis, perImage env notification vis url =
          replyWithError env notification
            ("Error compressing image: " ++ e))
    ∧ ∀ vis url, (perImage env notification vis url).posts ≠ [] := by
  refine ⟨?_, ?_, ?_⟩
  · intro hne
    have hlen : ¬ (collectImages env.getStatus
        notification.status).images.length = 0 := by
      simpa [List.length_eq_zero] using hne
    simp only [handleMention]
    rw [if_neg hlen]
    exact processImages_eq env notification notification.status.visibility _
  · intro url e hd vis
    unfold perImage
    rw [hd]
  · intro vis url
    unfold perImage
    cases hd : downloadAndCompressImage env url with
    | ok jpeg => exact uploadMediaAndReply_posts_ne_nil env jpeg notification vis
    | err e => rw [replyWithError_posts]; simp
    | panicked m =>
      exact absurd hd (downloadAndCompressImage_no_panic env url m)

/-- The mentioning status of the C6 witness: three image attachments. -/
def c6Status : Status :=
  ⟨"50", "public", [⟨"image", "u1"⟩, ⟨"image", "u2"⟩, ⟨"image", "u3"⟩],
    InReplyTo.goNil⟩

/-- The mention notification of the C6 witness. -/
def c6Notif : Notification := ⟨⟨"bob"⟩, c6Status⟩

/-- Oracles for the C6 witness: downloading `u2` fails with a network
error, every other stage succeeds. -/
def c6Env : Env where
  getStatus := fun _ => Except.error "record not found"
  httpGet := fun u =>
    if u = "u2" then Except.error "connection refused"
    else Except.ok pngMagicBytes
  readAll := fun b => Except.ok b
  decoders :=
    ⟨fun _ => Except.ok ⟨3⟩, fun _ => Except.error "generic",
      fun _ => Except.error "webp"⟩
  jpegEncode := fun _ _ => Except.ok [255, 216]
  uploadMedia := fun _ => Except.ok "m9"
  postStatus := fun _ => Except.ok ()

/-- Witness for C6 at concrete inputs: of three images the second fails at
download, yet all three produce a reply attempt (so images 1 and 3 were
still processed), and the second one's reply is the compression error
reply. -/
theorem handleMention_independent_witness :
    (handleMention c6Env c6Notif).posts.length = 3
    ∧ perImage c6Env c6Notif "public" "u2" =
        replyWithError c6Env c6Notif
          ("Error compressing image: failed to download image: connection refused") := by
  constructor
  · have h := (handleMention_independent c6Env c6Notif).1 (by decide)
    rw [h]
    decide
  · exact (handleMention_independent c6Env c6Notif).2.1 "u2"
      "failed to download image: connection refused" (by decide) "public"

/-! ## C7: no images found -/

/-- C7: when the collector returns no image URLs, `handleMention` posts
exactly one reply — the `No images found to process.` error reply, whose
text is `"@<acct> Oops! No images found to process."` — and performs no
pipeline work: the outcome does not depend on the HTTP, decoding,
encoding, or upload oracles (last conjunct). -/
theorem handleMention_no_images (env : Env) (notification : Notification)
    (hempty : (collectImages env.getStatus notification.status).images = []) :
    handleMention env notification =
      replyWithError env notification "No images found to process."
    ∧ (handleMention env notification).posts =
        [errorToot notification "No images found to process."]
    ∧ (errorToot notification "No images found to process.").status =
        "@" ++ notification.account.acct ++ " Oops! " ++
          "No images found to process."
    ∧ ∀ env2 : Env, env2.getStatus = env.getStatus →
        env2.postStatus = env.postStatus →
        handleMention env2 notification = handleMention env notification := by
  have h1 : handleMention env notification =
      replyWithError env notification "No images found to process." := by
    simp only [handleMention]
    rw [if_pos (by simp [hempty])]
  refine ⟨h1, ?_, rfl, ?_⟩
  · rw [h1, replyWithError_posts]
  · intro env2 hg hp
    have h2 : handleMention env2 notification =
        replyWithError env2 notification "No images found to process." := by
      simp only [handleMention]
      rw [if_pos (by simp [hg, hempty])]
    rw [h1, h2]
    unfold replyWithError
    rw [hp]

/-- Oracles for the C7 witness: the pipeline stages would all fail, but
none of them is ever consulted. -/
def c7Env : Env where
  getStatus := fun _ => Except.error "record not found"
  httpGet := fun _ => Except.error "unreachable"
  readAll := fun b => Except.ok b
  decoders :=
    ⟨fun _ => Except.error "png", fun _ => Except.error "generic",
      fun _ => Except.error "webp"⟩
  jpegEncode := fun _ _ => Except.error "encode"
  uploadMedia := fun _ => Except.error "upload"
  postStatus := fun _ => Except.ok ()

/-- Same service oracles as `c7Env` but with succeeding pipeline stages;
the no-images outcome is identical. -/
def c7EnvB : Env :=
  { c7Env with
    httpGet := fun _ => Except.ok []
    jpegEncode := fun _ _ => Except.ok [7]
    uploadMedia := fun _ => Except.ok "m" }

/-- A mention whose status carries only a video attachment and no reply
target, so no image is found. -/
def c7Notif : Notification :=
  ⟨⟨"carol"⟩, ⟨"9", "direct", [⟨"video", "v1"⟩], InReplyTo.goNil⟩⟩

/-- Witness for C7 at concrete inputs: exactly one reply is posted, and
changing every pipeline oracle changes nothing. -/
theorem handleMention_no_images_witness :
    (handleMention c7Env c7Notif).posts =
      [errorToot c7Notif "No images found to process."]
    ∧ handleMention c7EnvB c7Notif = handleMention c7Env c7Notif := by
  have h := handleMention_no_images c7Env c7Notif (by decide)
  exact ⟨h.2.1, h.2.2.2 c7EnvB rfl rfl⟩

/-! ## C8: success-post failure handling (corrected) -/

/-- The mention notification used by the C8 counterexample and witness. -/
def c8Notif : Notification :=
  ⟨⟨"dave"⟩, ⟨"77", "public", [⟨"image", "u"⟩], InReplyTo.goNil⟩⟩

/-- Oracles for the C8 counterexample: the upload succeeds, posting the
success reply (the toot carrying media) fails, posting the error reply
(which carries no media) succeeds. -/
def c8Env : Env where
  getStatus := fun _ => Except.error "record not found"
  httpGet := fun _ => Except.ok pngMagicBytes
  readAll := fun b => Except.ok b
  decoders :=
    ⟨fun _ => Except.ok ⟨1⟩, fun _ => Except.error "generic",
      fun _ => Except.error "webp"⟩
  jpegEncode := fun _ _ => Except.ok [255]
  uploadMedia := fun _ => Except.ok "m1"
  postStatus := fun t =>
    if t.mediaIDs = [] then Except.ok () else Except.error "boom"

/-- Counterexample to C8: when posting the success reply fails, the bot
does not stop at logging — it makes one further status-post attempt, the
`Error posting reply:` error reply, so two posts are attempted for the
image. -/
theorem uploadMediaAndReply_post_failure_counterexample :
    (uploadMediaAndReply c8Env [255] c8Notif "public").posts =
      [successToot c8Notif "m1" "unlisted",
        errorToot c8Notif "Error posting reply: boom"] := by
  decide

/-- C8 (amended): when posting the success reply fails, the success post
is not retried, but one further status post is attempted: `replyWithError`
posts the `Error posting reply:` error reply; only when that error reply
itself fails to post is the failure logged, and nothing further is
attempted. -/
theorem uploadMediaAndReply_post_failure (env : Env) (jpeg : List Nat)
    (notification : Notification) (vis mediaID e : String)
    (hup : env.uploadMedia jpeg = Except.ok mediaID)
    (hpost : env.postStatus (successToot notification mediaID
        (if vis = "public" then "unlisted" else vis)) = Except.error e) :
    (uploadMediaAndReply env jpeg notification vis).posts =
      [successToot notification mediaID
          (if vis = "public" then "unlisted" else vis),
        errorToot notification ("Error posting reply: " ++ e)]
    ∧ ∀ e2, env.postStatus (errorToot notification
          ("Error posting reply: " ++ e)) = Except.error e2 →
        (uploadMediaAndReply env jpeg notification vis).logs =
          ["Error posting error reply: " ++ e2] := by
  constructor
  · simp only [uploadMediaAndReply, hup, hpost]
    simp [Posted.seq, replyWithError_posts]
  · intro e2 h2
    simp only [uploadMediaAndReply, hup, hpost]
    simp [Posted.seq, replyWithError, h2]

/-- Oracles for the C8 witness: like `c8Env` but every post attempt
fails, so the error reply's own failure is logged. -/
def c8FailEnv : Env :=
  { c8Env with postStatus := fun _ => Except.error "down" }

/-- Witness for the amended C8 at concrete inputs: the failed success post
is followed by exactly one error-reply attempt, and that attempt's failure
is logged. -/
theorem uploadMediaAndReply_post_failure_witness :
    (uploadMediaAndReply c8FailEnv [255] c8Notif "public").posts =
      [successToot c8Notif "m1" "unlisted",
        errorToot c8Notif "Error posting reply: down"]
    ∧ (uploadMediaAndReply c8FailEnv [255] c8Notif "public").logs =
        ["Error posting error reply: down"] := by
  have h := uploadMediaAndReply_post_failure c8FailEnv [255] c8Notif "public"
    "m1" "down" rfl rfl
  exact ⟨h.1, h.2 "down" rfl⟩

/-! ## C9: quality-5 compression and determinism -/

/-- C9: the compressor encodes the decoded bitmap by a single call to
`jpeg.Encode` at the fixed quality factor 5 — when the fetch, read, and
decode stages succeed, the pipeline result is exactly the quality-5
encoder output for the decoded bitmap (first conjunct) — and compression
is a deterministic function of the decoded bitmap: two pipeline runs whose
decode stages produce the same bitmap yield byte-identical output (second
conjunct). -/
theorem compress_quality5 (env : Env) (url1 url2 : String)
    (b1 b2 d1 d2 : List Nat) (img : Image) (f1 f2 : String)
    (hg1 : env.httpGet url1 = Except.ok b1)
    (hr1 : env.readAll b1 = Except.ok d1)
    (hd1 : decodeImage env.decoders d1 (readAllCap d1.length) =
      POutcome.ok (img, f1))
    (hg2 : env.httpGet url2 = Except.ok b2)
    (hr2 : env.readAll b2 = Except.ok d2)
    (hd2 : decodeImage env.decoders d2 (readAllCap d2.length) =
      POutcome.ok (img, f2)) :
    (downloadAndCompressImage env url1 =
      match env.jpegEncode img 5 with
      | Except.error e => POutcome.err ("error encoding to jpeg: " ++ e)
      | Except.ok buf => POutcome.ok buf)
    ∧ downloadAndCompressImage env url1 =
        downloadAndCompressImage env url2 := by
  have h1 : downloadAndCompressImage env url1 =
      match env.jpegEncode img 5 with
      | Except.error e => POutcome.err ("error encoding to jpeg: " ++ e)
      | Except.ok buf => POutcome.ok buf := by
    simp only [downloadAndCompressImage, hg1, hr1, hd1]
  have h2 : downloadAndCompressImage env url2 =
      match env.jpegEncode img 5 with
      | Except.error e => POutcome.err ("error encoding to jpeg: " ++ e)
      | Except.ok buf => POutcome.ok buf := by
    simp only [downloadAndCompressImage, hg2, hr2, hd2]
  exact ⟨h1, h1.trans h2.symm⟩

/-- Oracles for the C9 witness: two different URLs deliver different bytes
that decode to the same bitmap; the encoder records the bitmap token and
the quality factor in its output, exposing the quality value 5. -/
def c9Env : Env where
  getStatus := fun _ => Except.error "record not found"
  httpGet := fun u =>
    if u = "a" then Except.ok pngMagicBytes
    else Except.ok (pngMagicBytes ++ [1])
  readAll := fun b => Except.ok b
  decoders :=
    ⟨fun _ => Except.ok ⟨5⟩, fun _ => Except.error "generic",
      fun _ => Except.error "webp"⟩
  jpegEncode := fun img q => Except.ok [img.raw, q]
  uploadMedia := fun _ => Except.ok "m"
  postStatus := fun _ => Except.ok ()

/-- Witness for C9 at concrete inputs: the pipeline output records quality
factor 5, and the two runs that decode to the same bitmap produce
byte-identical output. -/
theorem compress_quality5_witness :
    downloadAndCompressImage c9Env "a" = POutcome.ok [5, 5]
    ∧ downloadAndCompressImage c9Env "a" =
        downloadAndCompressImage c9Env "b" := by
  have h := compress_quality5 c9Env "a" "b" pngMagicBytes
    (pngMagicBytes ++ [1]) pngMagicBytes (pngMagicBytes ++ [1]) ⟨5⟩
    "png" "png" rfl rfl (by decide) rfl rfl (by decide)
  refine ⟨?_, h.2⟩
  rw [h.1]
  decide

/-! ## C10: error reply text format -/

/-- C10: every error reply has text `"@<acct> Oops! <message>"` addressed
to the mentioning account (first two conjuncts); every per-image pipeline
failure is reported with the message prefix `Error compressing image:`
regardless of the failing stage (third conjunct); and a pure download
failure in particular is reported as
`Error compressing image: failed to download image: <err>` (fourth
conjunct gives the pipeline error that the third conjunct then wraps). -/
theorem error_reply_format (env : Env) (notification : Notification) :
    (∀ msg, (replyWithError env notification msg).posts =
      [errorToot notification msg])
    ∧ (∀ msg, (errorToot notification msg).status =
        "@" ++ notification.account.acct ++ " Oops! " ++ msg)
    ∧ (∀ vis url e, downloadAndCompressImage env url = POutcome.err e →
        (perImage env notification vis url).posts =
          [errorToot notification ("Error compressing image: " ++ e)])
    ∧ (∀ url e, env.httpGet url = Except.error e →
        downloadAndCompressImage env url =
          POutcome.err ("failed to download image: " ++ e)) := by
  refine ⟨fun msg => replyWithError_posts env notification msg,
    fun msg => rfl, ?_, ?_⟩
  · intro vis url e hd
    unfold perImage
    rw [hd]
    exact replyWithError_posts env notification _
  · intro url e hg
    simp only [downloadAndCompressImage, hg]

/-- Oracles for the C10 witness: every download fails with a network
error. -/
def c10Env : Env where
  getStatus := fun _ => Except.error "record not found"
  httpGet := fun _ => Except.error "dial tcp: timeout"
  readAll := fun b => Except.ok b
  decoders :=
    ⟨fun _ => Except.error "png", fun _ => Except.error "generic",
      fun _ => Except.error "webp"⟩
  jpegEncode := fun _ _ => Except.error "encode"
  uploadMedia := fun _ => Except.error "upload"
  postStatus := fun _ => Except.ok ()

/-- The mention used by the C10 witness. -/
def c10Notif : Notification :=
  ⟨⟨"erin"⟩, ⟨"88", "unlisted", [⟨"image", "x"⟩], InReplyTo.goNil⟩⟩

/-- Witness for C10 at concrete inputs: a pure download failure is
reported to the user as a compression error, in a reply of the
`"@<acct> Oops! <message>"` shape. -/
theorem error_reply_format_witness :
    (errorToot c10Notif
        "Error compressing image: failed to download image: dial tcp: timeout").status =
      "@erin Oops! Error compressing image: failed to download image: dial tcp: timeout"
    ∧ (perImage c10Env c10Notif "unlisted" "x").posts =
        [errorToot c10Notif
          "Error compressing image: failed to download image: dial tcp: timeout"] := by
  have h := error_reply_format c10Env c10Notif
  refine ⟨?_, ?_⟩
  · rw [h.2.1 "Error compressing image: failed to download image: dial tcp: timeout"]
    rfl
  · have hd := h.2.2.2 "x" "dial tcp: timeout" rfl
    exact h.2.2.1 "unlisted" "x"
      "failed to download image: dial tcp: timeout" hd

end JpegBot
